import Mathlib

/-!
# Lorenz attractor viewer (`src/main.js`): integrator, trajectory buffer, ticks

A shallow embedding of the parts of `src/main.js` that carry behaviour:

* the module-level simulation variables (`points`, `x`, `y`, `z`, `sigma`, `rho`, `beta`, `dt`),
* the frame callback `animate` (lines 191-222),
* the `resize` listener (lines 226-230),
* the tick and label builder `createTicks` (lines 114-182).

JavaScript numbers are modelled by exact rationals `ℚ`; the rendering engine (three.js)
is outside the program and only the data handed to it is modelled.
-/

namespace Lorenz

/-! ## Data model -/

/-- The three components of a `THREE.Vector3`. -/
structure Vector3 where
  x : ℚ
  y : ℚ
  z : ℚ
  deriving DecidableEq, Repr

/-- `Vector3.multiplyScalar(s)`: every component is multiplied by `s`. -/
def Vector3.multiplyScalar (v : Vector3) (s : ℚ) : Vector3 :=
  ⟨v.x * s, v.y * s, v.z * s⟩

/-- The four module-level constants `sigma`, `rho`, `beta`, `dt` (lines 97-100). -/
structure Params where
  sigma : ℚ
  rho : ℚ
  beta : ℚ
  dt : ℚ
  deriving DecidableEq, Repr

/-- One call of `console.log` made by `animate` (lines 205-206). -/
inductive LogEntry where
  | currentPosition (x y z : ℚ)
  | numberOfPoints (n : Nat)
  deriving DecidableEq, Repr

/-- The `THREE.PerspectiveCamera` fields the program reads or writes: the four constructor
arguments and the projection matrix (its 16 entries). -/
structure Camera where
  fov : ℚ
  aspect : ℚ
  near : ℚ
  far : ℚ
  projectionMatrix : List ℚ
  deriving DecidableEq, Repr

/-- The output size of the `THREE.WebGLRenderer`, as last given to `setSize`. -/
structure Renderer where
  width : Nat
  height : Nat
  deriving DecidableEq, Repr

/-- The mutable module-level state of `main.js` that `animate` and the resize listener touch. -/
structure Program where
  params : Params
  x : ℚ
  y : ℚ
  z : ℚ
  points : List Vector3
  attractorGeometry : List Vector3
  console : List LogEntry
  camera : Camera
  renderer : Renderer
  deriving DecidableEq, Repr

/-! ## Startup (lines 10-15, 91-107) -/

/-- The constants of lines 97-100: `sigma = 10`, `rho = 28`, `beta = 8/3`, `dt = 0.005`. -/
def lorenzParams : Params :=
  { sigma := 10, rho := 28, beta := 8 / 3, dt := 0.005 }

/-- `camera.updateProjectionMatrix()`: the engine recomputes the projection matrix from the
camera's current `fov`, `aspect`, `near` and `far`. The engine's formula is the argument `proj`. -/
def Camera.updateProjectionMatrix (proj : ℚ → ℚ → ℚ → ℚ → List ℚ) (c : Camera) : Camera :=
  { c with projectionMatrix := proj c.fov c.aspect c.near c.far }

/-- The state once the module body has run, just before the first call of `animate`, for a
window of inner size `innerWidth` by `innerHeight`. -/
def startup (proj : ℚ → ℚ → ℚ → ℚ → List ℚ) (innerWidth innerHeight : Nat) : Program :=
  { params := lorenzParams
    x := 0.1
    y := 0
    z := 0
    points := []
    attractorGeometry := []
    console := []
    camera :=
      Camera.updateProjectionMatrix proj
        { fov := 75, aspect := (innerWidth : ℚ) / (innerHeight : ℚ), near := 0.1, far := 1000,
          projectionMatrix := [] }
    renderer := { width := innerWidth, height := innerHeight } }

/-! ## The frame callback `animate` (lines 191-222) -/

/-- Lines 203-207: the two `console.log` calls, made when `points.length % 100 === 0`.
The arguments are the already updated `x`, `y`, `z` and the buffer before the push. -/
def debugLog (x y z : ℚ) (points : List Vector3) (console : List LogEntry) : List LogEntry :=
  if points.length % 100 = 0 then
    console ++ [LogEntry.currentPosition x y z, LogEntry.numberOfPoints points.length]
  else
    console

/-- Lines 209-213: `points.push(p)` followed by `if (points.length > 5000) points.shift()`. -/
def pushPoint (points : List Vector3) (p : Vector3) : List Vector3 :=
  let pushed := points ++ [p]
  if pushed.length > 5000 then pushed.tail else pushed

/-- One frame of `animate`. The calls `requestAnimationFrame`, `controls.update` and
`renderer.render` go to the browser and the engine and do not touch the fields below. -/
def animate (s : Program) : Program :=
  let dx := s.params.sigma * (s.y - s.x) * s.params.dt
  let dy := (s.x * (s.params.rho - s.z) - s.y) * s.params.dt
  let dz := (s.x * s.y - s.params.beta * s.z) * s.params.dt
  let x := s.x + dx
  let y := s.y + dy
  let z := s.z + dz
  let console := debugLog x y z s.points s.console
  let points := pushPoint s.points ((Vector3.mk x y z).multiplyScalar 0.3)
  { s with x := x, y := y, z := z, console := console, points := points,
           attractorGeometry := points }

/-- The state after `n` completed frames. -/
def frames : Nat → Program → Program
  | 0, s => s
  | n + 1, s => animate (frames n s)

/-! ## The resize listener (lines 226-230) -/

/-- The listener body for a window whose inner size has become `innerWidth` by `innerHeight`.
The quotient is taken in `ℚ`, where division by zero gives 0 (JavaScript gives `Infinity` or
`NaN` for a window of height 0). -/
def onResize (proj : ℚ → ℚ → ℚ → ℚ → List ℚ) (innerWidth innerHeight : Nat) (s : Program) :
    Program :=
  let camera := { s.camera with aspect := (innerWidth : ℚ) / (innerHeight : ℚ) }
  let camera := camera.updateProjectionMatrix proj
  { s with camera := camera, renderer := { width := innerWidth, height := innerHeight } }

/-- The log entries written by the frame that starts in state `s`. -/
def emitted (s : Program) : List LogEntry :=
  (animate s).console.drop s.console.length

/-! ## Ticks and labels: `createTicks` (lines 114-182) -/

/-- The objects `createTicks` adds to the scene: a `THREE.Line` through the given points with
a `LineBasicMaterial` of the given colour, or a `THREE.Mesh` of a `TextGeometry` (text, `size`,
`height`) with a `MeshBasicMaterial` of the given colour, placed at `position`. -/
inductive SceneObject where
  | line (points : List Vector3) (color : Nat)
  | text (text : String) (size height : ℚ) (color : Nat) (position : Vector3)
  deriving DecidableEq, Repr

/-- A counted loop `for (let i = start; ...; i++)` running `count` iterations; an iteration
that throws (`none`) ends the loop. -/
def forLoop {σ : Type} (body : Int → σ → Option σ) : Nat → Int → σ → Option σ
  | 0, _, s => some s
  | n + 1, i, s => (body i s).bind (forLoop body n (i + 1))

/-- The loop `for (let i = lo; i <= hi; i++)`. -/
def forRange {σ : Type} (lo hi : Int) (body : Int → σ → Option σ) (s : σ) : Option σ :=
  forLoop body (hi + 1 - lo).toNat lo s

/-- The first `switch (axis)` (lines 122-144): the two end points of the tick and the position
of its number. For any other `axis` both stay `undefined` and `number.position.copy(position)`
throws. -/
def tickPlacement (axis : String) (i : Int) : Option (List Vector3 × Vector3) :=
  let tickSize : ℚ := 0.2
  if axis = "x" then
    some ([⟨i, -tickSize, 0⟩, ⟨i, tickSize, 0⟩], ⟨i - 0.1, -0.5, 0⟩)
  else if axis = "y" then
    some ([⟨-tickSize, i, 0⟩, ⟨tickSize, i, 0⟩], ⟨-0.5, i - 0.1, 0⟩)
  else if axis = "z" then
    some ([⟨0, -tickSize, i⟩, ⟨0, tickSize, i⟩], ⟨0, -0.5, i - 0.1⟩)
  else
    none

/-- The body of the loop of `createTicks` (lines 116-158) for one value of `i`. -/
def tickBody (axis : String) (color : Nat) (i : Int) (scene : List SceneObject) :
    Option (List SceneObject) :=
  if i = 0 then
    some scene
  else
    match tickPlacement axis i with
    | none => none
    | some (tickPoints, position) =>
      let scene := scene ++ [SceneObject.line tickPoints color]
      some (scene ++ [SceneObject.text (toString (Int.natAbs i)) 0.3 0.01 color position])

/-- The second `switch (axis)` (lines 170-180): where the axis label goes; a new mesh sits at
the origin. -/
def labelPosition (axis : String) : Vector3 :=
  if axis = "x" then ⟨10.5, 0, 0⟩
  else if axis = "y" then ⟨0, 10.5, 0⟩
  else if axis = "z" then ⟨0, 0, 10.5⟩
  else ⟨0, 0, 0⟩

/-- The function `createTicks(axis, color)`, acting on the list of objects of the scene. -/
def createTicks (axis : String) (color : Nat) (scene : List SceneObject) :
    Option (List SceneObject) :=
  (forRange (-10) 10 (tickBody axis color) scene).map fun scene =>
    scene ++ [SceneObject.text axis 0.4 0.01 color (labelPosition axis)]

/-! ## Observations used to state the properties -/

/-- The coordinate of a point along the named axis. -/
def Vector3.along (axis : String) (v : Vector3) : ℚ :=
  if axis = "x" then v.x else if axis = "y" then v.y else v.z

/-- The two end points of a line object made of exactly two points. -/
def SceneObject.segment : SceneObject → Option (Vector3 × Vector3)
  | .line [a, b] _ => some (a, b)
  | _ => none

/-- The coordinate along the named axis shared by both end points of a two-point line, when
they share it. -/
def SceneObject.tickAt (axis : String) : SceneObject → Option ℚ
  | .line [a, b] _ => if a.along axis = b.along axis then some (a.along axis) else none
  | _ => none

/-- The text and the position of a text mesh. -/
def SceneObject.label : SceneObject → Option (String × Vector3)
  | .text t _ _ _ p => some (t, p)
  | _ => none

/-- The integers from -10 to 10 without 0, in increasing order. -/
def tickValues : List Int :=
  [-10, -9, -8, -7, -6, -5, -4, -3, -2, -1, 1, 2, 3, 4, 5, 6, 7, 8, 9, 10]

/-! ## The specification's wording, for comparison with the code -/

/-- Spec, section 4.1, `step(state, params)`: `dx = sigma·(y−x)·dt`, `dy = (x·(rho−z)−y)·dt`,
`dz = (x·y−beta·z)·dt`, returning `(x+dx, y+dy, z+dz)`. -/
def specStep (p : Params) (v : Vector3) : Vector3 :=
  ⟨v.x + p.sigma * (v.y - v.x) * p.dt,
   v.y + (v.x * (p.rho - v.z) - v.y) * p.dt,
   v.z + (v.x * v.y - p.beta * v.z) * p.dt⟩

/-- The state `s_k` after `k` Euler steps from the initial state `s_0 = (0.1, 0, 0)` with
`sigma = 10`, `rho = 28`, `beta = 8/3`, `dt = 0.005`. -/
def specState : Nat → Vector3
  | 0 => ⟨0.1, 0, 0⟩
  | k + 1 => specStep ⟨10, 28, 8 / 3, 0.005⟩ (specState k)

/-- Spec, section 3: the buffer "grows by one entry per frame until capacity, then maintains
constant size by evict-then-append". -/
def evictThenAppend (capacity : Nat) (b : List Vector3) (p : Vector3) : List Vector3 :=
  if b.length < capacity then b ++ [p] else b.tail ++ [p]

/-! ## Measures used in the proofs -/

/-- The 5-adic valuation, used to tell the iterates apart by their denominators. -/
def val5 (q : ℚ) : ℤ := padicValRat 5 q

/-- The denominators of an iterate carry powers of 5 that grow from step to step. -/
def FarFromStart (v : Vector3) : Prop :=
  v.x ≠ 0 ∧ v.y ≠ 0 ∧ v.z ≠ 0 ∧ val5 v.y < val5 v.x ∧ val5 v.x < -1 ∧ val5 v.z < 0 ∧
  val5 v.x + val5 v.z < val5 v.y ∧ val5 v.x + val5 v.y < val5 v.z ∧
  2 * val5 v.y - 1 < val5 v.z

/-! ## Auxiliary facts -/

theorem pushPoint_of_lt (b : List Vector3) (p : Vector3) (h : b.length < 5000) :
    pushPoint b p = b ++ [p] := by
  have hlen : ¬ (b ++ [p]).length > 5000 := by
    simp only [List.length_append, List.length_singleton]; omega
  simp only [pushPoint, if_neg hlen]

theorem pushPoint_of_ge (b : List Vector3) (p : Vector3) (h : 5000 ≤ b.length) :
    pushPoint b p = (b ++ [p]).tail := by
  have hlen : (b ++ [p]).length > 5000 := by
    simp only [List.length_append, List.length_singleton]; omega
  simp only [pushPoint, if_pos hlen]

theorem tail_append_singleton (b : List Vector3) (p : Vector3) (h : b ≠ []) :
    (b ++ [p]).tail = b.tail ++ [p] := by
  cases b with
  | nil => exact absurd rfl h
  | cons a t => rfl

theorem ne_nil_of_capacity (b : List Vector3) (h : 5000 ≤ b.length) : b ≠ [] := by
  intro hb
  rw [hb] at h
  simp at h

theorem pushPoint_length (b : List Vector3) (p : Vector3) :
    (pushPoint b p).length = if b.length < 5000 then b.length + 1 else b.length := by
  by_cases h : b.length < 5000
  · rw [pushPoint_of_lt b p h, if_pos h]; simp
  · rw [pushPoint_of_ge b p (by omega), if_neg h]; simp

theorem animate_points (s : Program) :
    (animate s).points =
      pushPoint s.points ((Vector3.mk (animate s).x (animate s).y (animate s).z).multiplyScalar 0.3) :=
  rfl

theorem animate_params (s : Program) : (animate s).params = s.params := rfl

theorem frames_params (n : Nat) (s : Program) : (frames n s).params = s.params := by
  induction n with
  | zero => rfl
  | succ n ih => rw [frames, animate_params, ih]

theorem frames_points_length (n : Nat) (s : Program) (h : s.points = []) :
    (frames n s).points.length = min n 5000 := by
  induction n with
  | zero => simp [frames, h]
  | succ n ih =>
    rw [frames, animate_points, pushPoint_length, ih]
    split_ifs with hlt <;> omega

theorem emitted_eq (s : Program) :
    emitted s =
      if s.points.length % 100 = 0 then
        [LogEntry.currentPosition (animate s).x (animate s).y (animate s).z,
         LogEntry.numberOfPoints s.points.length]
      else [] := by
  unfold emitted
  have hc : (animate s).console
      = debugLog (animate s).x (animate s).y (animate s).z s.points s.console := rfl
  rw [hc]
  unfold debugLog
  split_ifs with h <;> simp

/-- The integrator state after `n` frames from startup is the `n`-th Euler iterate. -/
theorem frames_state (proj : ℚ → ℚ → ℚ → ℚ → List ℚ) (w h : Nat) (n : Nat) :
    Vector3.mk (frames n (startup proj w h)).x (frames n (startup proj w h)).y
      (frames n (startup proj w h)).z = specState n := by
  induction n with
  | zero => rfl
  | succ n ih =>
    have hp : (frames n (startup proj w h)).params = ⟨10, 28, 8 / 3, 0.005⟩ := by
      rw [frames_params]; rfl
    have hx := congrArg Vector3.x ih
    have hy := congrArg Vector3.y ih
    have hz := congrArg Vector3.z ih
    simp only at hx hy hz
    simp only [frames, animate, specState, specStep, hp, hx, hy, hz]

theorem tickBody_append (axis : String) (color : Nat) (i : Int) (scene : List SceneObject) :
    tickBody axis color i scene = (tickBody axis color i []).map (scene ++ ·) := by
  unfold tickBody
  split_ifs with h0
  · simp
  · cases tickPlacement axis i with
    | none => simp
    | some pr => simp

theorem forLoop_tickBody_append (axis : String) (color : Nat) (n : Nat) :
    ∀ (i : Int) (scene : List SceneObject),
      forLoop (tickBody axis color) n i scene
        = (forLoop (tickBody axis color) n i []).map (scene ++ ·) := by
  induction n with
  | zero => intro i scene; simp [forLoop]
  | succ n ih =>
    intro i scene
    rw [forLoop, forLoop, tickBody_append]
    cases hb : tickBody axis color i [] with
    | none => simp
    | some added =>
      simp only [Option.map_some', Option.some_bind]
      rw [ih (i + 1) (scene ++ added), ih (i + 1) added]
      cases forLoop (tickBody axis color) n (i + 1) [] with
      | none => simp
      | some more => simp

theorem createTicks_append (axis : String) (color : Nat) (scene : List SceneObject) :
    createTicks axis color scene = (createTicks axis color []).map (scene ++ ·) := by
  unfold createTicks forRange
  rw [forLoop_tickBody_append]
  cases forLoop (tickBody axis color) (10 + 1 - (-10 : Int)).toNat (-10) [] with
  | none => simp
  | some more => simp

theorem mem_tickValues (i : Int) : i ∈ tickValues ↔ (-10 ≤ i ∧ i ≤ 10 ∧ i ≠ 0) := by
  simp only [tickValues, List.mem_cons, List.mem_singleton, List.not_mem_nil, or_false]
  omega

theorem createTicks_x_added (color : Nat) :
    ∃ added : List SceneObject,
      createTicks "x" color [] = some added ∧
      added.length = 41 ∧
      added.filterMap SceneObject.segment = tickValues.map (fun i =>
        if "x" = "x" then ((⟨i, -0.2, 0⟩ : Vector3), (⟨i, 0.2, 0⟩ : Vector3))
        else if "x" = "y" then (⟨-0.2, i, 0⟩, ⟨0.2, i, 0⟩)
        else (⟨0, -0.2, i⟩, ⟨0, 0.2, i⟩)) ∧
      added.filterMap (SceneObject.tickAt "x") = tickValues.map (fun i => (i : ℚ)) ∧
      added.filterMap SceneObject.label = tickValues.map (fun i =>
        (toString (Int.natAbs i),
         if "x" = "x" then (⟨i - 0.1, -0.5, 0⟩ : Vector3)
         else if "x" = "y" then ⟨-0.5, i - 0.1, 0⟩
         else ⟨0, -0.5, i - 0.1⟩))
        ++ [("x", ⟨if "x" = "x" then 10.5 else 0, if "x" = "y" then 10.5 else 0,
                  if "x" = "z" then 10.5 else 0⟩)] ∧
      (added.filterMap SceneObject.label).map Prod.fst
        = tickValues.map (fun i => toString (Int.natAbs i)) ++ ["x"] ∧
      (added.filterMap SceneObject.label).getLast?.map Prod.snd
        = some ⟨if "x" = "x" then 10.5 else 0, if "x" = "y" then 10.5 else 0,
                if "x" = "z" then 10.5 else 0⟩ := by
  refine ⟨_, rfl, ?_, ?_, ?_, ?_, ?_, ?_⟩
  · simp
  · simp [SceneObject.segment, tickValues]
  · simp [SceneObject.tickAt, Vector3.along, tickValues]
  · simp [SceneObject.label, labelPosition, tickValues]
  · simp [SceneObject.label, tickValues]
  · simp [SceneObject.label, labelPosition]

theorem createTicks_y_added (color : Nat) :
    ∃ added : List SceneObject,
      createTicks "y" color [] = some added ∧
      added.length = 41 ∧
      added.filterMap SceneObject.segment = tickValues.map (fun i =>
        if "y" = "x" then ((⟨i, -0.2, 0⟩ : Vector3), (⟨i, 0.2, 0⟩ : Vector3))
        else if "y" = "y" then (⟨-0.2, i, 0⟩, ⟨0.2, i, 0⟩)
        else (⟨0, -0.2, i⟩, ⟨0, 0.2, i⟩)) ∧
      added.filterMap (SceneObject.tickAt "y") = tickValues.map (fun i => (i : ℚ)) ∧
      added.filterMap SceneObject.label = tickValues.map (fun i =>
        (toString (Int.natAbs i),
         if "y" = "x" then (⟨i - 0.1, -0.5, 0⟩ : Vector3)
         else if "y" = "y" then ⟨-0.5, i - 0.1, 0⟩
         else ⟨0, -0.5, i - 0.1⟩))
        ++ [("y", ⟨if "y" = "x" then 10.5 else 0, if "y" = "y" then 10.5 else 0,
                  if "y" = "z" then 10.5 else 0⟩)] ∧
      (added.filterMap SceneObject.label).map Prod.fst
        = tickValues.map (fun i => toString (Int.natAbs i)) ++ ["y"] ∧
      (added.filterMap SceneObject.label).getLast?.map Prod.snd
        = some ⟨if "y" = "x" then 10.5 else 0, if "y" = "y" then 10.5 else 0,
                if "y" = "z" then 10.5 else 0⟩ := by
  refine ⟨_, rfl, ?_, ?_, ?_, ?_, ?_, ?_⟩
  · simp
  · simp [SceneObject.segment, tickValues]
  · simp [SceneObject.tickAt, Vector3.along, tickValues]
  · simp [SceneObject.label, labelPosition, tickValues]
  · simp [SceneObject.label, tickValues]
  · simp [SceneObject.label, labelPosition]

theorem createTicks_z_added (color : Nat) :
    ∃ added : List SceneObject,
      createTicks "z" color [] = some added ∧
      added.length = 41 ∧
      added.filterMap SceneObject.segment = tickValues.map (fun i =>
        if "z" = "x" then ((⟨i, -0.2, 0⟩ : Vector3), (⟨i, 0.2, 0⟩ : Vector3))
        else if "z" = "y" then (⟨-0.2, i, 0⟩, ⟨0.2, i, 0⟩)
        else (⟨0, -0.2, i⟩, ⟨0, 0.2, i⟩)) ∧
      added.filterMap (SceneObject.tickAt "z") = tickValues.map (fun i => (i : ℚ)) ∧
      added.filterMap SceneObject.label = tickValues.map (fun i =>
        (toString (Int.natAbs i),
         if "z" = "x" then (⟨i - 0.1, -0.5, 0⟩ : Vector3)
         else if "z" = "y" then ⟨-0.5, i - 0.1, 0⟩
         else ⟨0, -0.5, i - 0.1⟩))
        ++ [("z", ⟨if "z" = "x" then 10.5 else 0, if "z" = "y" then 10.5 else 0,
                  if "z" = "z" then 10.5 else 0⟩)] ∧
      (added.filterMap SceneObject.label).map Prod.fst
        = tickValues.map (fun i => toString (Int.natAbs i)) ++ ["z"] ∧
      (added.filterMap SceneObject.label).getLast?.map Prod.snd
        = some ⟨if "z" = "x" then 10.5 else 0, if "z" = "y" then 10.5 else 0,
                if "z" = "z" then 10.5 else 0⟩ := by
  refine ⟨_, rfl, ?_, ?_, ?_, ?_, ?_, ?_⟩
  · simp
  · simp [SceneObject.segment, tickValues]
  · simp [SceneObject.tickAt, Vector3.along, tickValues]
  · simp [SceneObject.label, labelPosition, tickValues]
  · simp [SceneObject.label, tickValues]
  · simp [SceneObject.label, labelPosition]

theorem prime_five_fact : Fact (Nat.Prime 5) := ⟨by norm_num⟩

theorem val5_mul {q r : ℚ} (hq : q ≠ 0) (hr : r ≠ 0) : val5 (q * r) = val5 q + val5 r :=
  @padicValRat.mul 5 prime_five_fact q r hq hr

theorem val5_unit_div_pow (a b e : Nat) (ha : ¬ 5 ∣ a) (hb : ¬ 5 ∣ b) :
    val5 ((a : ℚ) / (b : ℚ) / 5 ^ e) = -(e : ℤ) := by
  have ha0 : (a : ℚ) ≠ 0 := by
    intro h0
    have : a = 0 := by exact_mod_cast h0
    exact ha (this ▸ dvd_zero 5)
  have hb0 : (b : ℚ) ≠ 0 := by
    intro h0
    have : b = 0 := by exact_mod_cast h0
    exact hb (this ▸ dvd_zero 5)
  have h5 : ((5 : ℕ) : ℚ) ≠ 0 := by norm_num
  have hpow : ((5 : ℕ) : ℚ) ^ e ≠ 0 := pow_ne_zero _ h5
  have e1 : ((5 : ℚ) ^ e) = ((5 : ℕ) : ℚ) ^ e := by norm_num
  unfold val5
  rw [e1, @padicValRat.div 5 prime_five_fact _ _ (div_ne_zero ha0 hb0) hpow,
    @padicValRat.div 5 prime_five_fact _ _ ha0 hb0,
    @padicValRat.pow 5 prime_five_fact _ h5 e, padicValRat.of_nat, padicValRat.of_nat,
    padicValRat.of_nat, padicValNat.eq_zero_of_not_dvd ha, padicValNat.eq_zero_of_not_dvd hb,
    @padicValNat_self 5 prime_five_fact]
  simp

theorem val5_add_of_lt {q r : ℚ} (hq : q ≠ 0) (hr : r ≠ 0) (h : val5 q < val5 r) :
    q + r ≠ 0 ∧ val5 (q + r) = val5 q := by
  have hne : q + r ≠ 0 := by
    intro h0
    have hr' : r = -q := by linarith
    rw [hr'] at h
    unfold val5 at h
    rw [padicValRat.neg] at h
    exact lt_irrefl _ h
  exact ⟨hne, @padicValRat.add_eq_of_lt 5 prime_five_fact q r hne hq hr h⟩


theorem val5_const {c : ℚ} (a b e : Nat) (ha : ¬ 5 ∣ a) (hb : ¬ 5 ∣ b)
    (hc : c = (a : ℚ) / (b : ℚ) / 5 ^ e) : c ≠ 0 ∧ val5 c = -(e : ℤ) := by
  have ha0 : (a : ℚ) ≠ 0 := by
    intro h0
    have : a = 0 := by exact_mod_cast h0
    exact ha (this ▸ dvd_zero 5)
  have hb0 : (b : ℚ) ≠ 0 := by
    intro h0
    have : b = 0 := by exact_mod_cast h0
    exact hb (this ▸ dvd_zero 5)
  refine ⟨?_, by rw [hc]; exact val5_unit_div_pow a b e ha hb⟩
  rw [hc]
  exact div_ne_zero (div_ne_zero ha0 hb0) (pow_ne_zero _ (by norm_num))

theorem val5_neg (q : ℚ) : val5 (-q) = val5 q := by
  unfold val5
  rw [padicValRat.neg]

theorem farFromStart_step (v : Vector3) (hv : FarFromStart v) :
    FarFromStart (specStep ⟨10, 28, 8 / 3, 0.005⟩ v) := by
  obtain ⟨hx, hy, hz, h1, h2, h3, h4, h5, h6⟩ := hv
  obtain ⟨c1, v1⟩ := val5_const (c := (1 / 20 : ℚ)) 1 4 1 (by decide) (by decide) (by norm_num)
  obtain ⟨c2, v2⟩ := val5_const (c := (19 / 20 : ℚ)) 19 4 1 (by decide) (by decide) (by norm_num)
  obtain ⟨c3, v3⟩ := val5_const (c := (1 / 200 : ℚ)) 1 8 2 (by decide) (by decide) (by norm_num)
  obtain ⟨c4, v4⟩ := val5_const (c := (7 / 50 : ℚ)) 7 2 2 (by decide) (by decide) (by norm_num)
  obtain ⟨c5, v5⟩ := val5_const (c := (199 / 200 : ℚ)) 199 8 2 (by decide) (by decide)
    (by norm_num)
  obtain ⟨c6, v6⟩ := val5_const (c := (74 / 75 : ℚ)) 74 3 2 (by decide) (by decide) (by norm_num)
  -- the new x
  have ex : (specStep ⟨10, 28, 8 / 3, 0.005⟩ v).x = 1 / 20 * v.y + 19 / 20 * v.x := by
    simp only [specStep]; norm_num; ring
  have ax := val5_add_of_lt (mul_ne_zero c1 hy) (mul_ne_zero c2 hx)
    (by rw [val5_mul c1 hy, val5_mul c2 hx, v1, v2]; push_cast; omega)
  rw [val5_mul c1 hy, v1] at ax
  -- the new y
  have ey : (specStep ⟨10, 28, 8 / 3, 0.005⟩ v).y
      = -(1 / 200 * (v.x * v.z)) + (199 / 200 * v.y + 7 / 50 * v.x) := by
    simp only [specStep]; norm_num; ring
  have ay0 := val5_add_of_lt (mul_ne_zero c5 hy) (mul_ne_zero c4 hx)
    (by rw [val5_mul c5 hy, val5_mul c4 hx, v5, v4]; push_cast; omega)
  rw [val5_mul c5 hy, v5] at ay0
  have hxz : v.x * v.z ≠ 0 := mul_ne_zero hx hz
  have ay := val5_add_of_lt (neg_ne_zero.mpr (mul_ne_zero c3 hxz)) ay0.1
    (by rw [val5_neg, val5_mul c3 hxz, val5_mul hx hz, v3, ay0.2]; push_cast; omega)
  rw [val5_neg, val5_mul c3 hxz, val5_mul hx hz, v3] at ay
  -- the new z
  have ez : (specStep ⟨10, 28, 8 / 3, 0.005⟩ v).z = 1 / 200 * (v.x * v.y) + 74 / 75 * v.z := by
    simp only [specStep]; norm_num; ring
  have hxy : v.x * v.y ≠ 0 := mul_ne_zero hx hy
  have az := val5_add_of_lt (mul_ne_zero c3 hxy) (mul_ne_zero c6 hz)
    (by rw [val5_mul c3 hxy, val5_mul hx hy, val5_mul c6 hz, v3, v6]; push_cast; omega)
  rw [val5_mul c3 hxy, val5_mul hx hy, v3] at az
  push_cast at ax ay az
  unfold FarFromStart
  rw [ex, ey, ez, ax.2, ay.2, az.2]
  refine ⟨ax.1, ay.1, az.1, ?_, ?_, ?_, ?_, ?_, ?_⟩ <;> omega

theorem farFromStart_two : FarFromStart (specState 2) := by
  have ex : (specState 2).x = 1819 / 20000 := by
    simp only [specState, specStep]; norm_num
  have ey : (specState 2).y = 2723 / 100000 := by
    simp only [specState, specStep]; norm_num
  have ez : (specState 2).z = 133 / 20000000 := by
    simp only [specState, specStep]; norm_num
  obtain ⟨cx, vx⟩ := val5_const (c := (1819 / 20000 : ℚ)) 1819 32 4 (by decide) (by decide)
    (by norm_num)
  obtain ⟨cy, vy⟩ := val5_const (c := (2723 / 100000 : ℚ)) 2723 32 5 (by decide) (by decide)
    (by norm_num)
  obtain ⟨cz, vz⟩ := val5_const (c := (133 / 20000000 : ℚ)) 133 256 7 (by decide) (by decide)
    (by norm_num)
  unfold FarFromStart
  rw [ex, ey, ez, vx, vy, vz]
  refine ⟨cx, cy, cz, ?_, ?_, ?_, ?_, ?_, ?_⟩ <;> norm_num

theorem farFromStart_specState (k : Nat) : FarFromStart (specState (k + 2)) := by
  induction k with
  | zero => exact farFromStart_two
  | succ k ih => exact farFromStart_step _ ih

/-- No later iterate has the x-coordinate of the initial state. -/
theorem specState_x_ne_start (k : Nat) (hk : 1 ≤ k) : (specState k).x ≠ (specState 0).x := by
  obtain ⟨c0, v0⟩ := val5_const (c := (1 / 10 : ℚ)) 1 2 1 (by decide) (by decide) (by norm_num)
  have e0 : (specState 0).x = 1 / 10 := by simp only [specState]; norm_num
  rcases Nat.lt_or_ge k 2 with h | h
  · have hk1 : k = 1 := by omega
    subst hk1
    simp only [specState, specStep]; norm_num
  · obtain ⟨j, rfl⟩ : ∃ j, k = j + 2 := ⟨k - 2, by omega⟩
    obtain ⟨_, _, _, _, hlt, _⟩ := farFromStart_specState j
    intro heq
    rw [heq, e0, v0] at hlt
    norm_num at hlt


theorem window_push (f : Nat → Vector3) (a m : Nat) :
    (List.range' a m).map f ++ [f (a + m)] = (List.range' a (m + 1)).map f := by
  rw [List.range'_1_concat, List.map_append, List.map_singleton]

theorem window_push_tail (f : Nat → Vector3) (a m : Nat) :
    ((List.range' a (m + 1)).map f).tail = (List.range' (a + 1) m).map f := by
  rw [List.range'_succ, List.map_cons, List.tail_cons]

theorem frames_points_window (proj : ℚ → ℚ → ℚ → ℚ → List ℚ) (w h : Nat) (n : Nat) :
    (frames n (startup proj w h)).points =
      (List.range' (n - min n 5000 + 1) (min n 5000)).map
        (fun k => (specState k).multiplyScalar 0.3) := by
  induction n with
  | zero => rfl
  | succ n ih =>
    have hlen := frames_points_length n (startup proj w h) rfl
    have hst := frames_state proj w h (n + 1)
    have hpts := animate_points (frames n (startup proj w h))
    have hfr : animate (frames n (startup proj w h)) = frames (n + 1) (startup proj w h) := rfl
    rw [hfr, hst] at hpts
    rw [hpts]
    rcases Nat.lt_or_ge n 5000 with hlt | hge
    · have e1 : n - min n 5000 + 1 = 1 := by omega
      have e2 : n + 1 - min (n + 1) 5000 + 1 = 1 := by omega
      have e3 : min n 5000 = n := by omega
      have e4 : min (n + 1) 5000 = n + 1 := by omega
      rw [pushPoint_of_lt _ _ (by omega), ih, e1, e2, e3, e4,
        ← window_push (fun k => (specState k).multiplyScalar 0.3) 1 n, Nat.add_comm 1 n]
    · have e1 : n - min n 5000 + 1 = n - 5000 + 1 := by omega
      have e2 : n + 1 - min (n + 1) 5000 + 1 = n - 5000 + 1 + 1 := by omega
      have e3 : min n 5000 = 5000 := by omega
      have e4 : min (n + 1) 5000 = 5000 := by omega
      have e5 : n + 1 = n - 5000 + 1 + 5000 := by omega
      rw [pushPoint_of_ge _ _ (by omega), ih, e1, e2, e3, e4, e5,
        window_push (fun k => (specState k).multiplyScalar 0.3) (n - 5000 + 1) 5000,
        window_push_tail]

theorem scaled_start_not_in_window (a m : Nat) (ha : 1 ≤ a) :
    (specState 0).multiplyScalar 0.3 ∉
      (List.range' a m).map (fun k => (specState k).multiplyScalar 0.3) := by
  intro hmem
  obtain ⟨k, hk, hkeq⟩ := List.mem_map.mp hmem
  have hk1 : 1 ≤ k := by
    have := (List.mem_range'_1.mp hk).1
    omega
  have hx := congrArg Vector3.x hkeq
  simp only [Vector3.multiplyScalar] at hx
  have hx' : (specState k).x = (specState 0).x := by
    have h3 : (0.3 : ℚ) ≠ 0 := by norm_num
    exact mul_right_cancel₀ h3 hx
  exact specState_x_ne_start k hk1 hx'

/-! ## Theorems -/

/-- C1: one frame of `animate` replaces `(x, y, z)` by the simultaneous explicit Euler update
`(x + sigma*(y-x)*dt, y + (x*(rho-z)-y)*dt, z + (x*y-beta*z)*dt)`, all three increments being
computed from the old `x`, `y`, `z`, for every state and every parameter values. -/
theorem animate_euler_step (s : Program) :
    (animate s).x = s.x + s.params.sigma * (s.y - s.x) * s.params.dt ∧
    (animate s).y = s.y + (s.x * (s.params.rho - s.z) - s.y) * s.params.dt ∧
    (animate s).z = s.z + (s.x * s.y - s.params.beta * s.z) * s.params.dt ∧
    Vector3.mk (animate s).x (animate s).y (animate s).z
      = specStep s.params ⟨s.x, s.y, s.z⟩ :=
  ⟨rfl, rfl, rfl, rfl⟩

/-- C6: from the startup state `(0.1, 0, 0)` with `sigma = 10`, `rho = 28`, `beta = 8/3`,
`dt = 0.005`, the state after the first frame is `(0.095, 0.014, 0)`, the increments being
`dx = -0.005`, `dy = 0.014`, `dz = 0`. -/
theorem first_frame_state (proj : ℚ → ℚ → ℚ → ℚ → List ℚ) (w h : Nat) :
    (startup proj w h).x = 0.1 ∧ (startup proj w h).y = 0 ∧ (startup proj w h).z = 0 ∧
    (startup proj w h).params = ⟨10, 28, 8 / 3, 0.005⟩ ∧
    (frames 1 (startup proj w h)).x = 0.095 ∧
    (frames 1 (startup proj w h)).y = 0.014 ∧
    (frames 1 (startup proj w h)).z = 0 ∧
    (frames 1 (startup proj w h)).x - (startup proj w h).x = -0.005 ∧
    (frames 1 (startup proj w h)).y - (startup proj w h).y = 0.014 ∧
    (frames 1 (startup proj w h)).z - (startup proj w h).z = 0 := by
  refine ⟨rfl, rfl, rfl, rfl, ?_, ?_, ?_, ?_, ?_, ?_⟩ <;>
    simp only [frames, animate, startup, lorenzParams] <;> norm_num

/-- C2: starting from the empty buffer created at startup, after `n` completed frames the
buffer holds exactly `min n 5000` points, hence never more than 5000. -/
theorem buffer_length_after_frames (proj : ℚ → ℚ → ℚ → ℚ → List ℚ) (w h : Nat) (n : Nat) :
    (startup proj w h).points = [] ∧
    (frames n (startup proj w h)).points.length = min n 5000 ∧
    (frames n (startup proj w h)).points.length ≤ 5000 := by
  have hlen := frames_points_length n (startup proj w h) rfl
  exact ⟨rfl, hlen, by omega⟩

/-- C3: when the buffer holds exactly 5000 points at the start of a frame, after the frame it
holds exactly 5000 points again, its first element is the former second element, and its
content is the former content without its first element followed by the new point. -/
theorem full_buffer_evicts_oldest (s : Program) (h : s.points.length = 5000) :
    (animate s).points.length = 5000 ∧
    (animate s).points.head? = s.points[1]? ∧
    (animate s).points =
      s.points.tail ++
        [(Vector3.mk (animate s).x (animate s).y (animate s).z).multiplyScalar 0.3] := by
  have hne : s.points ≠ [] := ne_nil_of_capacity s.points (by omega)
  have hpts := animate_points s
  rw [pushPoint_of_ge _ _ (by omega), tail_append_singleton _ _ hne] at hpts
  refine ⟨?_, ?_, hpts⟩
  · rw [hpts]; simp; omega
  · rw [hpts]
    obtain ⟨a, t, hat⟩ := List.exists_cons_of_ne_nil hne
    rw [hat] at h ⊢
    cases t with
    | nil => simp at h
    | cons b u => simp

/-- C3 at a concrete full buffer (5000 copies of the origin, in the startup state). -/
theorem full_buffer_evicts_oldest_witness :
    (List.replicate 5000 (Vector3.mk 0 0 0)).length = 5000 ∧
    (animate { startup (fun _ _ _ _ => []) 800 600 with
        points := List.replicate 5000 ⟨0, 0, 0⟩ }).points.length = 5000 ∧
    (animate { startup (fun _ _ _ _ => []) 800 600 with
        points := List.replicate 5000 ⟨0, 0, 0⟩ }).points.head?
      = (List.replicate 5000 (Vector3.mk 0 0 0))[1]? :=
  ⟨List.length_replicate 5000 _,
   (full_buffer_evicts_oldest
      { startup (fun _ _ _ _ => []) 800 600 with points := List.replicate 5000 ⟨0, 0, 0⟩ }
      (List.length_replicate 5000 _)).1,
   (full_buffer_evicts_oldest
      { startup (fun _ _ _ _ => []) 800 600 with points := List.replicate 5000 ⟨0, 0, 0⟩ }
      (List.length_replicate 5000 _)).2.1⟩

/-- C4: after `n` frames from startup the points buffer, from which the line geometry is
built, is the window `[0.3*s_(n-m+1), ..., 0.3*s_n]` with `m = min n 5000`, oldest first, where
`s_k` is the `k`-th Euler iterate of `s_0 = (0.1, 0, 0)`; the scaled initial state `0.3*s_0` is
not in the buffer. -/
theorem buffer_is_sliding_window (proj : ℚ → ℚ → ℚ → ℚ → List ℚ) (w h : Nat) (n : Nat) :
    specState 0 = ⟨0.1, 0, 0⟩ ∧
    (frames n (startup proj w h)).points =
      (List.range' (n - min n 5000 + 1) (min n 5000)).map
        (fun k => (specState k).multiplyScalar 0.3) ∧
    (frames n (startup proj w h)).attractorGeometry = (frames n (startup proj w h)).points ∧
    (specState 0).multiplyScalar 0.3 ∉ (frames n (startup proj w h)).points := by
  refine ⟨rfl, frames_points_window proj w h n, ?_, ?_⟩
  · cases n with
    | zero => rfl
    | succ n => rfl
  · rw [frames_points_window proj w h n]
    exact scaled_start_not_in_window _ _ (by omega)

/-- C5: the point appended to the end of the buffer in a frame is, component by component,
0.3 times the state produced by that frame's integrator step, and the integrator state kept
for the next frame is the unscaled Euler update. -/
theorem pushed_point_is_scaled_new_state (s : Program) :
    (animate s).points.getLast? =
      some ⟨(animate s).x * 0.3, (animate s).y * 0.3, (animate s).z * 0.3⟩ ∧
    (animate s).x = s.x + s.params.sigma * (s.y - s.x) * s.params.dt ∧
    (animate s).y = s.y + (s.x * (s.params.rho - s.z) - s.y) * s.params.dt ∧
    (animate s).z = s.z + (s.x * s.y - s.params.beta * s.z) * s.params.dt := by
  refine ⟨?_, rfl, rfl, rfl⟩
  rw [animate_points]
  by_cases hlt : s.points.length < 5000
  · rw [pushPoint_of_lt _ _ hlt]
    simp [Vector3.multiplyScalar]
  · rw [pushPoint_of_ge _ _ (by omega),
      tail_append_singleton _ _ (ne_nil_of_capacity _ (by omega))]
    simp [Vector3.multiplyScalar]

/-- C10: for a buffer of at most 5000 points the code's push-then-shift gives the same buffer
as the specification's evict-then-append: `b ++ [p]` below capacity, and at capacity `b`
without its first element followed by `p`, of unchanged length 5000. -/
theorem pushPoint_refines_evictThenAppend (b : List Vector3) (p : Vector3)
    (h : b.length ≤ 5000) :
    pushPoint b p = evictThenAppend 5000 b p ∧
    (b.length < 5000 → pushPoint b p = b ++ [p]) ∧
    (b.length = 5000 → pushPoint b p = b.tail ++ [p] ∧ (pushPoint b p).length = 5000) := by
  refine ⟨?_, fun hlt => pushPoint_of_lt b p hlt, fun heq => ?_⟩
  · unfold evictThenAppend
    by_cases hlt : b.length < 5000
    · rw [if_pos hlt, pushPoint_of_lt b p hlt]
    · rw [if_neg hlt, pushPoint_of_ge b p (by omega),
        tail_append_singleton _ _ (ne_nil_of_capacity _ (by omega))]
  · have hpush : pushPoint b p = b.tail ++ [p] := by
      rw [pushPoint_of_ge b p (by omega),
        tail_append_singleton _ _ (ne_nil_of_capacity _ (by omega))]
    refine ⟨hpush, ?_⟩
    rw [pushPoint_length, if_neg (by omega), heq]

/-- C10 at a buffer that is at capacity (5000 copies of the origin). -/
theorem pushPoint_refines_evictThenAppend_witness :
    (List.replicate 5000 (Vector3.mk 0 0 0)).length ≤ 5000 ∧
    pushPoint (List.replicate 5000 ⟨0, 0, 0⟩) ⟨1, 2, 3⟩ =
      evictThenAppend 5000 (List.replicate 5000 ⟨0, 0, 0⟩) ⟨1, 2, 3⟩ :=
  ⟨le_of_eq (List.length_replicate 5000 _),
   (pushPoint_refines_evictThenAppend (List.replicate 5000 ⟨0, 0, 0⟩) ⟨1, 2, 3⟩
      (le_of_eq (List.length_replicate 5000 _))).1⟩

/-- C7: for every program state and every new viewport size the resize listener leaves the
integrator state, the parameters and the points buffer (and the line geometry and the log)
unchanged; it only sets the camera's aspect and projection and the renderer's output size. -/
theorem onResize_frame (proj : ℚ → ℚ → ℚ → ℚ → List ℚ) (w h : Nat) (s : Program) :
    (onResize proj w h s).x = s.x ∧ (onResize proj w h s).y = s.y ∧
    (onResize proj w h s).z = s.z ∧ (onResize proj w h s).params = s.params ∧
    (onResize proj w h s).points = s.points ∧
    (onResize proj w h s).attractorGeometry = s.attractorGeometry ∧
    (onResize proj w h s).console = s.console ∧
    (onResize proj w h s).camera.fov = s.camera.fov ∧
    (onResize proj w h s).camera.near = s.camera.near ∧
    (onResize proj w h s).camera.far = s.camera.far ∧
    (onResize proj w h s).camera.aspect = (w : ℚ) / (h : ℚ) ∧
    (onResize proj w h s).camera.projectionMatrix
      = proj s.camera.fov ((w : ℚ) / (h : ℚ)) s.camera.near s.camera.far ∧
    (onResize proj w h s).renderer = ⟨w, h⟩ :=
  ⟨rfl, rfl, rfl, rfl, rfl, rfl, rfl, rfl, rfl, rfl, rfl, rfl, rfl⟩

/-- C9: the frame 5002 from startup writes the diagnostic (its count line shows 5000 points)
although 5001 points were computed before it and 5001 is not a multiple of 100. In general
frame `n + 1` writes the diagnostic exactly when `min n 5000` is a multiple of 100, so once the
buffer is full every frame writes it. -/
theorem diagnostic_emitted_at_frame_5002 :
    emitted (frames 5001 (startup (fun _ _ _ _ => []) 800 600)) ≠ [] ∧
    LogEntry.numberOfPoints 5000 ∈ emitted (frames 5001 (startup (fun _ _ _ _ => []) 800 600)) ∧
    ¬ (5002 - 1) % 100 = 0 ∧
    ∀ n : Nat, (emitted (frames n (startup (fun _ _ _ _ => []) 800 600)) ≠ []
      ↔ min n 5000 % 100 = 0) := by
  have hlen := fun n => frames_points_length n (startup (fun _ _ _ _ => []) 800 600) rfl
  have hlen2 : (frames 5001 (startup (fun _ _ _ _ => []) 800 600)).points.length = 5000 := by
    rw [hlen]; rfl
  refine ⟨?_, ?_, by decide, fun n => ?_⟩
  · rw [emitted_eq, hlen2]; simp
  · rw [emitted_eq, hlen2]; simp
  · rw [emitted_eq, hlen n]
    split_ifs with hmod <;> simp [hmod]

/-- C8: for each of the axes `x`, `y`, `z`, `createTicks` adds to the scene exactly 41 objects:
one tick segment for every integer `i` from -10 to 10 other than 0, with end points
`(i, -0.2, 0)`, `(i, 0.2, 0)` on the x axis, `(-0.2, i, 0)`, `(0.2, i, 0)` on the y axis and
`(0, -0.2, i)`, `(0, 0.2, i)` on the z axis, so that it is perpendicular to the axis and meets
it at coordinate `i`; each tick has one number whose text is the decimal form of `|i|`, and
there is one label with the axis name at coordinate 10.5 of that axis. -/
theorem createTicks_ticks_and_labels (axis : String) (h : axis ∈ ["x", "y", "z"])
    (color : Nat) (scene : List SceneObject) :
    ∃ added : List SceneObject,
      createTicks axis color scene = some (scene ++ added) ∧
      (∀ i : Int, i ∈ tickValues ↔ (-10 ≤ i ∧ i ≤ 10 ∧ i ≠ 0)) ∧
      tickValues.Nodup ∧ tickValues.length = 20 ∧
      added.length = 41 ∧
      added.filterMap SceneObject.segment = tickValues.map (fun i =>
        if axis = "x" then ((⟨i, -0.2, 0⟩ : Vector3), (⟨i, 0.2, 0⟩ : Vector3))
        else if axis = "y" then (⟨-0.2, i, 0⟩, ⟨0.2, i, 0⟩)
        else (⟨0, -0.2, i⟩, ⟨0, 0.2, i⟩)) ∧
      added.filterMap (SceneObject.tickAt axis) = tickValues.map (fun i => (i : ℚ)) ∧
      added.filterMap SceneObject.label = tickValues.map (fun i =>
        (toString (Int.natAbs i),
         if axis = "x" then (⟨i - 0.1, -0.5, 0⟩ : Vector3)
         else if axis = "y" then ⟨-0.5, i - 0.1, 0⟩
         else ⟨0, -0.5, i - 0.1⟩))
        ++ [(axis, ⟨if axis = "x" then 10.5 else 0, if axis = "y" then 10.5 else 0,
                  if axis = "z" then 10.5 else 0⟩)] ∧
      (added.filterMap SceneObject.label).map Prod.fst
        = tickValues.map (fun i => toString (Int.natAbs i)) ++ [axis] ∧
      (added.filterMap SceneObject.label).getLast?.map Prod.snd
        = some ⟨if axis = "x" then 10.5 else 0, if axis = "y" then 10.5 else 0,
                if axis = "z" then 10.5 else 0⟩ := by
  rw [createTicks_append]
  simp only [List.mem_cons, List.mem_singleton, List.not_mem_nil, or_false] at h
  rcases h with rfl | rfl | rfl
  · obtain ⟨added, hc, hrest⟩ := createTicks_x_added color
    exact ⟨added, by rw [hc]; rfl, mem_tickValues, by decide, rfl, hrest⟩
  · obtain ⟨added, hc, hrest⟩ := createTicks_y_added color
    exact ⟨added, by rw [hc]; rfl, mem_tickValues, by decide, rfl, hrest⟩
  · obtain ⟨added, hc, hrest⟩ := createTicks_z_added color
    exact ⟨added, by rw [hc]; rfl, mem_tickValues, by decide, rfl, hrest⟩

/-- C8 at the call `createTicks('z', 0x0000ff)` on an empty scene. -/
theorem createTicks_ticks_and_labels_witness :
    "z" ∈ ["x", "y", "z"] ∧
    ∃ added : List SceneObject,
      createTicks "z" 0x0000ff [] = some ([] ++ added) ∧
      (∀ i : Int, i ∈ tickValues ↔ (-10 ≤ i ∧ i ≤ 10 ∧ i ≠ 0)) ∧
      tickValues.Nodup ∧ tickValues.length = 20 ∧
      added.length = 41 ∧
      added.filterMap SceneObject.segment = tickValues.map (fun i =>
        if "z" = "x" then ((⟨i, -0.2, 0⟩ : Vector3), (⟨i, 0.2, 0⟩ : Vector3))
        else if "z" = "y" then (⟨-0.2, i, 0⟩, ⟨0.2, i, 0⟩)
        else (⟨0, -0.2, i⟩, ⟨0, 0.2, i⟩)) ∧
      added.filterMap (SceneObject.tickAt "z") = tickValues.map (fun i => (i : ℚ)) ∧
      added.filterMap SceneObject.label = tickValues.map (fun i =>
        (toString (Int.natAbs i),
         if "z" = "x" then (⟨i - 0.1, -0.5, 0⟩ : Vector3)
         else if "z" = "y" then ⟨-0.5, i - 0.1, 0⟩
         else ⟨0, -0.5, i - 0.1⟩))
        ++ [("z", ⟨if "z" = "x" then 10.5 else 0, if "z" = "y" then 10.5 else 0,
                  if "z" = "z" then 10.5 else 0⟩)] ∧
      (added.filterMap SceneObject.label).map Prod.fst
        = tickValues.map (fun i => toString (Int.natAbs i)) ++ ["z"] ∧
      (added.filterMap SceneObject.label).getLast?.map Prod.snd
        = some ⟨if "z" = "x" then 10.5 else 0, if "z" = "y" then 10.5 else 0,
                if "z" = "z" then 10.5 else 0⟩ :=
  ⟨by decide, createTicks_ticks_and_labels "z" (by decide) 0x0000ff []⟩

end Lorenz
